/-
  Verification of the packet protocol engine of the fingerprint sensor
  driver (src/source/Fingerprint.cpp): the frame serializer
  `writeStructuredPacket`, the receive state machine
  `getStructuredPacket`, the interrupt-fed ring-buffer cursors
  (`receiveUART` / `readUARTbuff`) and the command layer
  (`getParameters`, `fingerFastSearch`) built on top of them.

  Machine integers are embedded as `Nat` with explicit `% 2^w`
  truncation at the points where the C++ types truncate.
-/
import Mathlib

set_option maxRecDepth 8192
set_option autoImplicit false

namespace FingerprintProto

/-! ## Protocol constants

The constants below are declared in `Fingerprint.h`, which is not part
of `src/`; only `Fingerprint.cpp` and the demo application are.  They
are therefore modelled from the spec.  The concrete numeric values are
the standard ones of this sensor family; no claim below depends on the
particular values, only on the distinctions between them. -/

/-- Modelled from the spec: the fixed 16-bit start-of-frame marker
("start_code must equal the protocol's fixed constant", §3).  Declared
in the missing `Fingerprint.h`; the module family's standard value
0xEF01 is used. -/
def FINGERPRINT_STARTCODE : Nat := 0xEF01

/-- Modelled from the spec: the `Ok` status / command-success code
(missing `Fingerprint.h`). -/
def FINGERPRINT_OK : Nat := 0x00

/-- Modelled from the spec: the communication-error status returned by
a command when the send/receive cycle fails (missing `Fingerprint.h`). -/
def FINGERPRINT_PACKETRECIEVEERR : Nat := 0x01

/-- Modelled from the spec: the sensor-reported `NotFound` status byte
(missing `Fingerprint.h`). -/
def FINGERPRINT_NOTFOUND : Nat := 0x09

/-- Modelled from the spec: the `Timeout` transport-level failure code
(missing `Fingerprint.h`). -/
def FINGERPRINT_TIMEOUT : Nat := 0xFF

/-- Modelled from the spec: the `BadPacket` transport-level failure
code (missing `Fingerprint.h`). -/
def FINGERPRINT_BADPACKET : Nat := 0xFE

/-- Modelled from the spec: the command packet type (missing
`Fingerprint.h`). -/
def FINGERPRINT_COMMANDPACKET : Nat := 0x1

/-- Modelled from the spec: the acknowledgment packet type (missing
`Fingerprint.h`). -/
def FINGERPRINT_ACKPACKET : Nat := 0x7

/-- Modelled from the spec: the read-system-parameters command byte
(missing `Fingerprint.h`). -/
def FINGERPRINT_READSYSPARAM : Nat := 0x0F

/-- Modelled from the spec: the high-speed-search command byte (missing
`Fingerprint.h`). -/
def FINGERPRINT_HISPEEDSEARCH : Nat := 0x1B

/-- Modelled from the spec: the maximum packet (payload) size, the
capacity of a packet's fixed-size `data` buffer ("payload bytes,
capacity-bounded buffer", §3; the buffer is declared in the missing
`Fingerprint.h`).  Sized to a worst-case template-transfer chunk of
64 bytes. -/
def maxPacketSize : Nat := 64

/-! ## Packet data model

`Fingerprint_Packet` (declared in `Fingerprint.h`, used throughout
`Fingerprint.cpp`).  `address` and `data` model the C++ `uint8_t`
arrays as index functions; capacity checking is absent in the source
(spec §9), so no bound is built into the model. -/

structure Fingerprint_Packet where
  start_code : Nat
  address : Nat → Nat
  type : Nat
  length : Nat
  data : Nat → Nat

/-- Modelled from the spec: the `Fingerprint_Packet` constructor used
by `GET_CMD_PACKET` (missing `Fingerprint.h`): a fresh request packet
carries the fixed start code, the broadcast device address
(0xFFFFFFFF, §3: "4-byte device address, broadcast value by default"),
and the given type, length and payload. -/
def Fingerprint_Packet.ofCommand (t : Nat) (payload : List Nat) : Fingerprint_Packet where
  start_code := FINGERPRINT_STARTCODE
  address := fun _ => 0xFF
  type := t
  length := payload.length
  data := fun i => payload.getD i 0

/-- The payload bytes the serializer loop reads: `packet.data[i]` for
`0 ≤ i < packet.length` (Fingerprint.cpp lines 426-434). -/
def payloadBytes (p : Fingerprint_Packet) : List Nat :=
  (List.range p.length).map fun i => p.data i

/-- `Fingerprint::writeStructuredPacket` (Fingerprint.cpp lines
386-456), as the byte sequence emitted on the serial transport: a
9-byte header (start code, address, type, wire length = `length + 2`,
all multi-byte fields big-endian), then the payload bytes, then the
two checksum bytes.  `sum` is a C++ `uint16_t`, hence the `% 65536` at
each accumulation; the loop counter is a `uint8_t`, so this embedding
is faithful for `length ≤ 255` (every claim stays well below that). -/
def writeStructuredPacket (p : Fingerprint_Packet) : List Nat :=
  let wire_length := (p.length + 2) % 65536
  let sum :=
    (payloadBytes p).foldl (fun s b => (s + b) % 65536)
      (((wire_length >>> 8) % 256 + wire_length % 256 + p.type) % 65536)
  [(p.start_code >>> 8) % 256, p.start_code % 256,
   p.address 0, p.address 1, p.address 2, p.address 3,
   p.type,
   (wire_length >>> 8) % 256, wire_length % 256]
  ++ payloadBytes p
  ++ [(sum >>> 8) % 256, sum % 256]

/-- Checksum as the specification words it (§4.2, §8): the truncated
16-bit sum of the wire-length high byte, the wire-length low byte, the
type byte and each payload byte.  Stated from the spec's words, to be
compared with the serializer. -/
def specChecksum (p : Fingerprint_Packet) : Nat :=
  ((p.length + 2) / 256 + (p.length + 2) % 256 + p.type + (payloadBytes p).sum) % 65536

lemma foldl_add_mod (l : List Nat) (a : Nat) :
    l.foldl (fun s b => (s + b) % 65536) (a % 65536) = (a + l.sum) % 65536 := by
  induction l generalizing a with
  | nil => simp
  | cons b t ih =>
    simp only [List.foldl_cons, List.sum_cons]
    rw [Nat.mod_add_mod, ih, Nat.add_assoc]

lemma shiftRight8_eq_div (a : Nat) : a >>> 8 = a / 256 := by
  rw [Nat.shiftRight_eq_div_pow]

/-- Byte-level layout of the serializer output, shared by several
claims: under the `uint16_t` field invariant on `start_code` and a
payload no longer than the packet buffer, the emitted stream is the
header, the payload, and the big-endian spec checksum. -/
lemma writeStructuredPacket_eq (p : Fingerprint_Packet)
    (hlen : p.length ≤ maxPacketSize) (hsc : p.start_code < 65536) :
    writeStructuredPacket p =
      [p.start_code / 256, p.start_code % 256,
       p.address 0, p.address 1, p.address 2, p.address 3,
       p.type,
       (p.length + 2) / 256, (p.length + 2) % 256]
      ++ payloadBytes p
      ++ [specChecksum p / 256, specChecksum p % 256] := by
  have hlen' : p.length ≤ 64 := hlen
  have hwl : (p.length + 2) % 65536 = p.length + 2 := Nat.mod_eq_of_lt (by omega)
  have hscdiv : p.start_code / 256 < 256 := by omega
  have hwldiv : (p.length + 2) / 256 < 256 := by omega
  have hsum :
      List.foldl (fun s b => (s + b) % 65536)
        (((p.length + 2) / 256 + (p.length + 2) % 256 + p.type) % 65536) (payloadBytes p)
      = specChecksum p := by
    rw [foldl_add_mod]
    simp only [specChecksum]
  have hsumlt : specChecksum p < 65536 := by
    simp only [specChecksum]
    exact Nat.mod_lt _ (by omega)
  simp only [writeStructuredPacket, hwl, shiftRight8_eq_div,
    Nat.mod_eq_of_lt hscdiv, Nat.mod_eq_of_lt hwldiv]
  rw [hsum, Nat.mod_eq_of_lt (show specChecksum p / 256 < 256 by omega)]

/-- C1: for every packet whose payload length is at most the maximum
packet size, `writeStructuredPacket` emits, in order, the 2-byte
big-endian start code, the 4 address bytes, the type byte, a 2-byte
big-endian wire length equal to `length + 2`, the payload bytes, and a
2-byte big-endian checksum equal to the sum of the wire-length high
byte, the wire-length low byte, the type byte and each payload byte,
mod 65536. -/
theorem writeStructuredPacket_layout (p : Fingerprint_Packet)
    (hlen : p.length ≤ maxPacketSize) (hsc : p.start_code < 65536) :
    writeStructuredPacket p =
      [p.start_code / 256, p.start_code % 256,
       p.address 0, p.address 1, p.address 2, p.address 3,
       p.type,
       (p.length + 2) / 256, (p.length + 2) % 256]
      ++ payloadBytes p
      ++ [specChecksum p / 256, specChecksum p % 256] :=
  writeStructuredPacket_eq p hlen hsc

/-- A concrete packet used to witness the serializer layout claim. -/
def c1Packet : Fingerprint_Packet where
  start_code := FINGERPRINT_STARTCODE
  address := fun _ => 0xFF
  type := FINGERPRINT_COMMANDPACKET
  length := 3
  data := fun i => [0x0A, 0x0B, 0xFD].getD i 0

theorem writeStructuredPacket_layout_witness :
    c1Packet.length ≤ maxPacketSize ∧ c1Packet.start_code < 65536 ∧
      writeStructuredPacket c1Packet =
        [c1Packet.start_code / 256, c1Packet.start_code % 256,
         c1Packet.address 0, c1Packet.address 1, c1Packet.address 2, c1Packet.address 3,
         c1Packet.type,
         (c1Packet.length + 2) / 256, (c1Packet.length + 2) % 256]
        ++ payloadBytes c1Packet
        ++ [specChecksum c1Packet / 256, specChecksum c1Packet % 256] :=
  ⟨by decide, by decide, writeStructuredPacket_layout c1Packet (by decide) (by decide)⟩

/-! ## Receive state machine

`Fingerprint::getStructuredPacket` (Fingerprint.cpp lines 469-542)
drains the interrupt-fed ring buffer byte-by-byte.  The incoming byte
stream is modelled as a list of `(gap, byte)` pairs: `gap` is the
number of 1 ms polls of an empty ring buffer before that byte becomes
available (`while (pl==pe) { sleep 1ms; timer++; if (timer >= timeout)
return FINGERPRINT_TIMEOUT; }`).  An exhausted list models a ring
buffer that stays empty for good, in which case the poll loop counts
`timer` up until it reaches `timeout` and returns the timeout code.
The `timer` variable is initialised once per call (line 472) and is
never reset after a byte is received, so a wait with `gap > 0` times
out exactly when `timer + gap` reaches `timeout`.  `idx` is a C++
`uint16_t`, hence the `% 65536` when it is incremented; the ring
stores `uint8_t`, hence `% 256` on each consumed byte. -/
def getSPLoop (timeout : Nat) :
    Fingerprint_Packet → Nat → Nat → List (Nat × Nat) →
      Nat × Fingerprint_Packet × List (Nat × Nat)
  | pkt, _, _, [] => (FINGERPRINT_TIMEOUT, pkt, [])
  | pkt, idx, timer, (g, b) :: rest =>
    if 0 < g ∧ timeout ≤ timer + g then
      (FINGERPRINT_TIMEOUT, pkt, (g, b) :: rest)
    else
      let timer' := timer + g
      let byte := b % 256
      if idx = 0 then
        if byte ≠ FINGERPRINT_STARTCODE >>> 8 then
          getSPLoop timeout pkt 0 timer' rest
        else
          getSPLoop timeout { pkt with start_code := byte <<< 8 } ((idx + 1) % 65536) timer' rest
      else if idx = 1 then
        let pkt' := { pkt with start_code := pkt.start_code ||| byte }
        if pkt'.start_code ≠ FINGERPRINT_STARTCODE then
          (FINGERPRINT_BADPACKET, pkt', rest)
        else
          getSPLoop timeout pkt' ((idx + 1) % 65536) timer' rest
      else if idx ≤ 5 then
        getSPLoop timeout { pkt with address := Function.update pkt.address (idx - 2) byte }
          ((idx + 1) % 65536) timer' rest
      else if idx = 6 then
        getSPLoop timeout { pkt with type := byte } ((idx + 1) % 65536) timer' rest
      else if idx = 7 then
        getSPLoop timeout { pkt with length := byte <<< 8 } ((idx + 1) % 65536) timer' rest
      else if idx = 8 then
        getSPLoop timeout { pkt with length := pkt.length ||| byte } ((idx + 1) % 65536) timer' rest
      else
        let pkt' := { pkt with data := Function.update pkt.data (idx - 9) byte }
        if idx - 8 = pkt'.length then
          (FINGERPRINT_OK, pkt', rest)
        else
          getSPLoop timeout pkt' ((idx + 1) % 65536) timer' rest

/-- `Fingerprint::getStructuredPacket(packet, timeout)`: run the
receive state machine from state 0 with a fresh `timer`, mutating
`packet` in place; returns the status code, the (possibly partially)
populated packet and the portion of the stream not consumed. -/
def getStructuredPacket (packet : Fingerprint_Packet) (timeout : Nat)
    (stream : List (Nat × Nat)) : Nat × Fingerprint_Packet × List (Nat × Nat) :=
  getSPLoop timeout packet 0 0 stream

/-- `gapsFit timeout timer s` holds when, replaying the waits of
stream `s` starting from poll counter `timer`, no individual wait
drives the cumulative counter up to `timeout`: each byte either is
already available (`gap = 0`, line 480's emptiness test fails at once)
or becomes available while `timer + gap < timeout`. -/
def gapsFit (timeout : Nat) : Nat → List (Nat × Nat) → Bool
  | _, [] => true
  | timer, (g, _) :: rest =>
    (g == 0 || decide (timer + g < timeout)) && gapsFit timeout (timer + g) rest

/-- Sequential writes `data[i] := bs[0] % 256, data[i+1] := bs[1] % 256, ...`,
the shape of the parser's payload phase (lines 527-536). -/
def writeSeq (d : Nat → Nat) (i : Nat) : List Nat → (Nat → Nat)
  | [] => d
  | b :: bs => writeSeq (Function.update d i (b % 256)) (i + 1) bs

lemma gapsFit_cons {timeout timer g b rest} :
    gapsFit timeout timer ((g, b) :: rest) = true ↔
      (g = 0 ∨ timer + g < timeout) ∧ gapsFit timeout (timer + g) rest = true := by
  simp [gapsFit]

lemma gapsFit_zero (timeout timer : Nat) (l : List Nat) :
    gapsFit timeout timer (l.map fun b => (0, b)) = true := by
  induction l generalizing timer with
  | nil => simp [gapsFit]
  | cons b t ih => simp [gapsFit, ih]

lemma not_timeout_of_gapFit {timeout timer g : Nat} (h : g = 0 ∨ timer + g < timeout) :
    ¬ (0 < g ∧ timeout ≤ timer + g) := by
  rcases h with h | h <;> omega

lemma writeSeq_apply_out (bs : List Nat) (d : Nat → Nat) (i j : Nat)
    (h : j < i ∨ i + bs.length ≤ j) : writeSeq d i bs j = d j := by
  induction bs generalizing d i with
  | nil => simp [writeSeq]
  | cons b t ih =>
    simp only [writeSeq]
    simp only [List.length_cons] at h
    rcases h with h | h
    · rw [ih _ _ (Or.inl (by omega))]
      rw [Function.update_noteq (show j ≠ i by omega)]
    · rw [ih _ _ (Or.inr (by omega))]
      rw [Function.update_noteq (show j ≠ i by omega)]

lemma writeSeq_apply_in (bs : List Nat) (d : Nat → Nat) (i j : Nat)
    (h1 : i ≤ j) (h2 : j < i + bs.length) :
    writeSeq d i bs j = bs.getD (j - i) 0 % 256 := by
  induction bs generalizing d i with
  | nil => simp at h2; omega
  | cons b t ih =>
    simp only [writeSeq]
    rcases Nat.eq_or_lt_of_le h1 with rfl | hlt
    · rw [writeSeq_apply_out _ _ _ _ (by omega)]
      simp [Function.update_same]
    · rw [ih _ _ (by omega) (by simp at h2 ⊢; omega)]
      have : j - i = (j - (i + 1)) + 1 := by omega
      simp [this]

/-! ### Single-step unfoldings of the state machine

One lemma per parser state, each consuming one `(gap, byte)` pair
whose wait does not exhaust the timeout. -/

lemma getSP_step0 (timeout g timer : Nat) (pkt : Fingerprint_Packet)
    (rest : List (Nat × Nat)) (h : ¬ (0 < g ∧ timeout ≤ timer + g)) :
    getSPLoop timeout pkt 0 timer ((g, 0xEF) :: rest) =
      getSPLoop timeout { pkt with start_code := 0xEF00 } 1 (timer + g) rest := by
  simp only [getSPLoop]
  rw [if_neg h]
  norm_num [FINGERPRINT_STARTCODE, Nat.shiftRight_eq_div_pow, Nat.shiftLeft_eq]

lemma getSP_step1 (timeout g timer : Nat) (pkt : Fingerprint_Packet)
    (rest : List (Nat × Nat)) (h : ¬ (0 < g ∧ timeout ≤ timer + g))
    (hsc : pkt.start_code = 0xEF00) :
    getSPLoop timeout pkt 1 timer ((g, 0x01) :: rest) =
      getSPLoop timeout { pkt with start_code := FINGERPRINT_STARTCODE } 2 (timer + g) rest := by
  simp only [getSPLoop]
  rw [if_neg h]
  norm_num [hsc, FINGERPRINT_STARTCODE]
  rw [show (61184 : Nat) ||| 1 = 61185 from by decide]
  simp

lemma getSP_step2 (timeout g timer b : Nat) (pkt : Fingerprint_Packet)
    (rest : List (Nat × Nat)) (h : ¬ (0 < g ∧ timeout ≤ timer + g)) :
    getSPLoop timeout pkt 2 timer ((g, b) :: rest) =
      getSPLoop timeout { pkt with address := Function.update pkt.address 0 (b % 256) }
        3 (timer + g) rest := by
  simp only [getSPLoop]
  rw [if_neg h]
  norm_num

lemma getSP_step3 (timeout g timer b : Nat) (pkt : Fingerprint_Packet)
    (rest : List (Nat × Nat)) (h : ¬ (0 < g ∧ timeout ≤ timer + g)) :
    getSPLoop timeout pkt 3 timer ((g, b) :: rest) =
      getSPLoop timeout { pkt with address := Function.update pkt.address 1 (b % 256) }
        4 (timer + g) rest := by
  simp only [getSPLoop]
  rw [if_neg h]
  norm_num

lemma getSP_step4 (timeout g timer b : Nat) (pkt : Fingerprint_Packet)
    (rest : List (Nat × Nat)) (h : ¬ (0 < g ∧ timeout ≤ timer + g)) :
    getSPLoop timeout pkt 4 timer ((g, b) :: rest) =
      getSPLoop timeout { pkt with address := Function.update pkt.address 2 (b % 256) }
        5 (timer + g) rest := by
  simp only [getSPLoop]
  rw [if_neg h]
  norm_num

lemma getSP_step5 (timeout g timer b : Nat) (pkt : Fingerprint_Packet)
    (rest : List (Nat × Nat)) (h : ¬ (0 < g ∧ timeout ≤ timer + g)) :
    getSPLoop timeout pkt 5 timer ((g, b) :: rest) =
      getSPLoop timeout { pkt with address := Function.update pkt.address 3 (b % 256) }
        6 (timer + g) rest := by
  simp only [getSPLoop]
  rw [if_neg h]
  norm_num

lemma getSP_step6 (timeout g timer b : Nat) (pkt : Fingerprint_Packet)
    (rest : List (Nat × Nat)) (h : ¬ (0 < g ∧ timeout ≤ timer + g)) :
    getSPLoop timeout pkt 6 timer ((g, b) :: rest) =
      getSPLoop timeout { pkt with type := b % 256 } 7 (timer + g) rest := by
  simp only [getSPLoop]
  rw [if_neg h]
  norm_num

lemma getSP_step7 (timeout g timer b : Nat) (pkt : Fingerprint_Packet)
    (rest : List (Nat × Nat)) (h : ¬ (0 < g ∧ timeout ≤ timer + g)) :
    getSPLoop timeout pkt 7 timer ((g, b) :: rest) =
      getSPLoop timeout { pkt with length := (b % 256) <<< 8 } 8 (timer + g) rest := by
  simp only [getSPLoop]
  rw [if_neg h]
  norm_num

lemma getSP_step8 (timeout g timer b : Nat) (pkt : Fingerprint_Packet)
    (rest : List (Nat × Nat)) (h : ¬ (0 < g ∧ timeout ≤ timer + g)) :
    getSPLoop timeout pkt 8 timer ((g, b) :: rest) =
      getSPLoop timeout { pkt with length := pkt.length ||| (b % 256) } 9 (timer + g) rest := by
  simp only [getSPLoop]
  rw [if_neg h]
  norm_num

/-- Payload phase: from state `idx ≥ 9`, a stream segment holding
exactly the remaining `9 + length - idx ≥ 1` post-header bytes (waits
within budget) is consumed in full, the bytes are written sequentially
into `data` starting at `idx - 9`, and the machine returns
`FINGERPRINT_OK` leaving the remainder of the stream untouched. -/
lemma getSPLoop_dataPhase (timeout : Nat) :
    ∀ (sg : List (Nat × Nat)) (rest : List (Nat × Nat)) (pkt : Fingerprint_Packet)
      (idx timer : Nat),
      9 ≤ idx → idx ≤ 8 + pkt.length → idx + sg.length = 9 + pkt.length →
      8 + pkt.length < 65536 →
      gapsFit timeout timer sg = true →
      getSPLoop timeout pkt idx timer (sg ++ rest) =
        (FINGERPRINT_OK,
         { pkt with data := writeSeq pkt.data (idx - 9) (sg.map Prod.snd) }, rest) := by
  intro sg
  induction sg with
  | nil =>
    intro rest pkt idx timer h9 hle hcount _ _
    simp at hcount
    omega
  | cons gb sg ih =>
    intro rest pkt idx timer h9 hle hcount hsmall hfit
    obtain ⟨g, b⟩ := gb
    rw [gapsFit_cons] at hfit
    obtain ⟨hg, hfit⟩ := hfit
    simp only [List.cons_append]
    simp only [getSPLoop]
    rw [if_neg (not_timeout_of_gapFit hg)]
    rw [if_neg (show ¬ idx = 0 by omega), if_neg (show ¬ idx = 1 by omega),
      if_neg (show ¬ idx ≤ 5 by omega), if_neg (show ¬ idx = 6 by omega),
      if_neg (show ¬ idx = 7 by omega), if_neg (show ¬ idx = 8 by omega)]
    simp only [List.length_cons] at hcount
    by_cases hend : idx - 8 = pkt.length
    · have hsg : sg = [] := by
        have : sg.length = 0 := by omega
        exact List.length_eq_zero.mp this
      subst hsg
      rw [if_pos (show idx - 8 =
        ({ pkt with data := Function.update pkt.data (idx - 9) (b % 256) } :
          Fingerprint_Packet).length from hend)]
      simp [writeSeq]
    · rw [if_neg (show ¬ idx - 8 =
        ({ pkt with data := Function.update pkt.data (idx - 9) (b % 256) } :
          Fingerprint_Packet).length from hend)]
      have hmod : (idx + 1) % 65536 = idx + 1 := Nat.mod_eq_of_lt (by omega)
      rw [hmod]
      rw [ih rest _ (idx + 1) (timer + g) (by omega) (by simp; omega) (by simp; omega)
        (by simp; omega) hfit]
      simp only [List.map_cons]
      simp only [writeSeq]
      have harg : idx - 9 + 1 = idx + 1 - 9 := by omega
      rw [harg]

/-- Complete run of the receive state machine over a well-formed frame
whose waits stay within the timeout budget: start code `0xEF 0x01`,
four address bytes, a type byte, a big-endian declared length `L ≥ 1`,
and exactly `L` post-header bytes, followed by any unconsumed
remainder.  The parser accepts, fills every header field, writes all
`L` post-header bytes into `data`, and leaves the remainder. -/
lemma getSPLoop_frame (timeout : Nat)
    (g0 g1 g2 g3 g4 g5 g6 g7 g8 : Nat) (b2 b3 b4 b5 b6 b7 b8 : Nat)
    (sg rest : List (Nat × Nat)) (pkt : Fingerprint_Packet) (timer : Nat)
    (hlen : sg.length = ((b7 % 256) <<< 8) ||| (b8 % 256))
    (hpos : 1 ≤ sg.length) (hsmall : 8 + sg.length < 65536)
    (hfit : gapsFit timeout timer
      ((g0, 0xEF) :: (g1, 0x01) :: (g2, b2) :: (g3, b3) :: (g4, b4) :: (g5, b5) ::
        (g6, b6) :: (g7, b7) :: (g8, b8) :: sg) = true) :
    getSPLoop timeout pkt 0 timer
      ((g0, 0xEF) :: (g1, 0x01) :: (g2, b2) :: (g3, b3) :: (g4, b4) :: (g5, b5) ::
        (g6, b6) :: (g7, b7) :: (g8, b8) :: (sg ++ rest)) =
      (FINGERPRINT_OK,
       { start_code := FINGERPRINT_STARTCODE,
         address := Function.update (Function.update (Function.update
           (Function.update pkt.address 0 (b2 % 256)) 1 (b3 % 256)) 2 (b4 % 256)) 3 (b5 % 256),
         type := b6 % 256,
         length := ((b7 % 256) <<< 8) ||| (b8 % 256),
         data := writeSeq pkt.data 0 (sg.map Prod.snd) },
       rest) := by
  simp only [gapsFit_cons] at hfit
  obtain ⟨hg0, hg1, hg2, hg3, hg4, hg5, hg6, hg7, hg8, hfit⟩ := hfit
  rw [getSP_step0 _ _ _ _ _ (not_timeout_of_gapFit hg0)]
  rw [getSP_step1 _ _ _ _ _ (not_timeout_of_gapFit hg1) rfl]
  rw [getSP_step2 _ _ _ _ _ _ (not_timeout_of_gapFit hg2)]
  rw [getSP_step3 _ _ _ _ _ _ (not_timeout_of_gapFit hg3)]
  rw [getSP_step4 _ _ _ _ _ _ (not_timeout_of_gapFit hg4)]
  rw [getSP_step5 _ _ _ _ _ _ (not_timeout_of_gapFit hg5)]
  rw [getSP_step6 _ _ _ _ _ _ (not_timeout_of_gapFit hg6)]
  rw [getSP_step7 _ _ _ _ _ _ (not_timeout_of_gapFit hg7)]
  rw [getSP_step8 _ _ _ _ _ _ (not_timeout_of_gapFit hg8)]
  exact getSPLoop_dataPhase timeout sg rest _ 9 _ (by omega)
    (by dsimp only; rw [← hlen]; omega)
    (by dsimp only; rw [← hlen])
    (by dsimp only; rw [← hlen]; omega) hfit

/-- A byte stream whose every byte is already sitting in the ring
buffer when the parser polls for it (all poll gaps zero). -/
def zeroGaps (l : List Nat) : List (Nat × Nat) := l.map fun b => (0, b)

/-- Parsing a well-formed frame delivered with zero waits: accepted in
full, for any timeout, with every post-header byte written into
`data`. -/
lemma parse_frame_zeroGaps (q : Fingerprint_Packet) (timeout : Nat)
    (b2 b3 b4 b5 b6 b7 b8 : Nat) (bs : List Nat)
    (hL : bs.length = ((b7 % 256) <<< 8) ||| (b8 % 256))
    (hpos : 1 ≤ bs.length) (hsmall : 8 + bs.length < 65536) :
    getStructuredPacket q timeout (zeroGaps ([0xEF, 0x01, b2, b3, b4, b5, b6, b7, b8] ++ bs)) =
      (FINGERPRINT_OK,
       { start_code := FINGERPRINT_STARTCODE,
         address := Function.update (Function.update (Function.update
           (Function.update q.address 0 (b2 % 256)) 1 (b3 % 256)) 2 (b4 % 256)) 3 (b5 % 256),
         type := b6 % 256,
         length := ((b7 % 256) <<< 8) ||| (b8 % 256),
         data := writeSeq q.data 0 bs }, []) := by
  have hfit := gapsFit_zero timeout 0 ([0xEF, 0x01, b2, b3, b4, b5, b6, b7, b8] ++ bs)
  unfold getStructuredPacket zeroGaps
  simp only [List.map_append, List.map_cons, List.map_nil, List.cons_append,
    List.nil_append] at hfit ⊢
  rw [← List.append_nil (List.map (fun b => (0, b)) bs)]
  rw [getSPLoop_frame timeout 0 0 0 0 0 0 0 0 0 b2 b3 b4 b5 b6 b7 b8
    (bs.map fun b => (0, b)) [] q 0 (by simpa using hL) (by simpa using hpos)
    (by simpa using hsmall) hfit]
  simp [List.map_map, Function.comp_def]

/-- C2: feeding the exact byte stream produced by
`writeStructuredPacket` back into `getStructuredPacket` yields
`FINGERPRINT_OK` with the original type and address; the parsed
`length` field is `length + 2` — the wire length, reflecting the known
checksum-in-payload quirk. -/
theorem serialize_parse_roundtrip (p q : Fingerprint_Packet) (timeout : Nat)
    (hsc : p.start_code = FINGERPRINT_STARTCODE)
    (hlen : p.length ≤ maxPacketSize)
    (hty : p.type < 256)
    (haddr : ∀ i, i < 4 → p.address i < 256) :
    (getStructuredPacket q timeout (zeroGaps (writeStructuredPacket p))).1 = FINGERPRINT_OK
    ∧ (getStructuredPacket q timeout (zeroGaps (writeStructuredPacket p))).2.1.type = p.type
    ∧ (∀ i, i < 4 →
        (getStructuredPacket q timeout (zeroGaps (writeStructuredPacket p))).2.1.address i
          = p.address i)
    ∧ (getStructuredPacket q timeout (zeroGaps (writeStructuredPacket p))).2.1.length
        = p.length + 2 := by
  have hl64 : p.length ≤ 64 := hlen
  have hsclt : p.start_code < 65536 := by rw [hsc]; norm_num [FINGERPRINT_STARTCODE]
  have hdiv : (p.length + 2) / 256 = 0 := Nat.div_eq_of_lt (by omega)
  have hmod : (p.length + 2) % 256 = p.length + 2 := Nat.mod_eq_of_lt (by omega)
  have hplen : (payloadBytes p).length = p.length := by simp [payloadBytes]
  have hrw : writeStructuredPacket p =
      [0xEF, 0x01, p.address 0, p.address 1, p.address 2, p.address 3, p.type, 0,
        p.length + 2] ++ ((payloadBytes p) ++ [specChecksum p / 256, specChecksum p % 256]) := by
    rw [writeStructuredPacket_eq p hlen hsclt, hsc, hdiv, hmod]
    norm_num [FINGERPRINT_STARTCODE]
  have hL : ((payloadBytes p) ++ [specChecksum p / 256, specChecksum p % 256]).length =
      ((0 % 256) <<< 8) ||| ((p.length + 2) % 256) := by
    simp [hplen, hmod, Nat.shiftLeft_eq]
  rw [hrw, parse_frame_zeroGaps q timeout _ _ _ _ _ _ _ _ hL (by simp) (by simp [hplen]; omega)]
  refine ⟨rfl, ?_, ?_, ?_⟩
  · exact Nat.mod_eq_of_lt hty
  · intro i hi
    interval_cases i <;>
      simp [Function.update, Nat.mod_eq_of_lt (haddr 0 (by omega)),
        Nat.mod_eq_of_lt (haddr 1 (by omega)), Nat.mod_eq_of_lt (haddr 2 (by omega)),
        Nat.mod_eq_of_lt (haddr 3 (by omega))]
  · simp [hmod, Nat.shiftLeft_eq]

/-- A concrete packet used to witness the serialize/parse round trip. -/
def c2Packet : Fingerprint_Packet where
  start_code := FINGERPRINT_STARTCODE
  address := fun _ => 0xFF
  type := FINGERPRINT_COMMANDPACKET
  length := 2
  data := fun i => [0x34, 0x56].getD i 0

theorem serialize_parse_roundtrip_witness :
    c2Packet.start_code = FINGERPRINT_STARTCODE ∧ c2Packet.length ≤ maxPacketSize ∧
    c2Packet.type < 256 ∧ (∀ i, i < 4 → c2Packet.address i < 256) ∧
    ((getStructuredPacket c2Packet 50 (zeroGaps (writeStructuredPacket c2Packet))).1
        = FINGERPRINT_OK
      ∧ (getStructuredPacket c2Packet 50 (zeroGaps (writeStructuredPacket c2Packet))).2.1.type
          = c2Packet.type
      ∧ (∀ i, i < 4 →
          (getStructuredPacket c2Packet 50
            (zeroGaps (writeStructuredPacket c2Packet))).2.1.address i = c2Packet.address i)
      ∧ (getStructuredPacket c2Packet 50
          (zeroGaps (writeStructuredPacket c2Packet))).2.1.length = c2Packet.length + 2) :=
  ⟨by decide, by decide, by decide, by decide,
    serialize_parse_roundtrip c2Packet c2Packet 50 (by decide) (by decide) (by decide)
      (by decide)⟩

lemma payloadBytes_getD (p : Fingerprint_Packet) (j : Nat) (h : j < p.length) :
    (payloadBytes p).getD j 0 = p.data j := by
  simp [payloadBytes, List.getD, h]

/-- C3: on a serialized frame whose two trailing checksum bytes are
replaced by arbitrary bytes `c1 c2`, the parser still returns
`FINGERPRINT_OK` (it never compares a computed checksum against the
received trailing bytes), it writes exactly the declared wire length
`length + 2` post-header bytes into `data` (cells at and beyond the
declared length are untouched), and the two wire checksum bytes land
inside `data` at positions `length` and `length + 1` instead of being
stripped. -/
theorem parser_checksum_lands_in_data (p q : Fingerprint_Packet) (c1 c2 timeout : Nat)
    (hsc : p.start_code = FINGERPRINT_STARTCODE) (hlen : p.length ≤ maxPacketSize)
    (hdata : ∀ i, i < p.length → p.data i < 256) (hc1 : c1 < 256) (hc2 : c2 < 256) :
    (getStructuredPacket q timeout
        (zeroGaps ((writeStructuredPacket p).take (9 + p.length) ++ [c1, c2]))).1
      = FINGERPRINT_OK
    ∧ (getStructuredPacket q timeout
        (zeroGaps ((writeStructuredPacket p).take (9 + p.length) ++ [c1, c2]))).2.1.length
      = p.length + 2
    ∧ (∀ j, j < p.length →
        (getStructuredPacket q timeout
          (zeroGaps ((writeStructuredPacket p).take (9 + p.length) ++ [c1, c2]))).2.1.data j
        = p.data j)
    ∧ (getStructuredPacket q timeout
        (zeroGaps ((writeStructuredPacket p).take (9 + p.length) ++ [c1, c2]))).2.1.data p.length
      = c1
    ∧ (getStructuredPacket q timeout
        (zeroGaps ((writeStructuredPacket p).take (9 + p.length) ++ [c1, c2]))).2.1.data
          (p.length + 1)
      = c2
    ∧ (∀ j, p.length + 2 ≤ j →
        (getStructuredPacket q timeout
          (zeroGaps ((writeStructuredPacket p).take (9 + p.length) ++ [c1, c2]))).2.1.data j
        = q.data j) := by
  have hl64 : p.length ≤ 64 := hlen
  have hsclt : p.start_code < 65536 := by rw [hsc]; norm_num [FINGERPRINT_STARTCODE]
  have hdiv : (p.length + 2) / 256 = 0 := Nat.div_eq_of_lt (by omega)
  have hmod : (p.length + 2) % 256 = p.length + 2 := Nat.mod_eq_of_lt (by omega)
  have hplen : (payloadBytes p).length = p.length := by simp [payloadBytes]
  have htake : (writeStructuredPacket p).take (9 + p.length) =
      [0xEF, 0x01, p.address 0, p.address 1, p.address 2, p.address 3, p.type, 0,
        p.length + 2] ++ payloadBytes p := by
    rw [writeStructuredPacket_eq p hlen hsclt, hsc, hdiv, hmod]
    rw [show FINGERPRINT_STARTCODE / 256 = 0xEF by norm_num [FINGERPRINT_STARTCODE],
      show FINGERPRINT_STARTCODE % 256 = 0x01 by norm_num [FINGERPRINT_STARTCODE]]
    exact List.take_left' (by simp [hplen]; omega)
  have hL : ((payloadBytes p) ++ [c1, c2]).length =
      ((0 % 256) <<< 8) ||| ((p.length + 2) % 256) := by
    simp [hplen, hmod, Nat.shiftLeft_eq]
  rw [htake, List.append_assoc,
    parse_frame_zeroGaps q timeout _ _ _ _ _ _ _ _ hL (by simp) (by simp [hplen]; omega)]
  refine ⟨rfl, by simp [hmod, Nat.shiftLeft_eq], ?_, ?_, ?_, ?_⟩
  · intro j hj
    show writeSeq q.data 0 ((payloadBytes p) ++ [c1, c2]) j = p.data j
    rw [writeSeq_apply_in _ _ _ _ (by omega) (by simp [hplen]; omega)]
    rw [Nat.sub_zero, List.getD_append _ _ _ _ (by omega                 )]
    rw [payloadBytes_getD p j hj]
    exact Nat.mod_eq_of_lt (hdata j hj)
  · show writeSeq q.data 0 ((payloadBytes p) ++ [c1, c2]) p.length = c1
    rw [writeSeq_apply_in _ _ _ _ (by omega) (by simp [hplen])]
    rw [Nat.sub_zero, List.getD_append_right _ _ _ _ (by omega)]
    simp [hplen, Nat.mod_eq_of_lt hc1]
  · show writeSeq q.data 0 ((payloadBytes p) ++ [c1, c2]) (p.length + 1) = c2
    rw [writeSeq_apply_in _ _ _ _ (by omega) (by simp [hplen])]
    rw [Nat.sub_zero, List.getD_append_right _ _ _ _ (by omega)]
    simp [hplen, Nat.mod_eq_of_lt hc2]
  · intro j hj
    show writeSeq q.data 0 ((payloadBytes p) ++ [c1, c2]) j = q.data j
    rw [writeSeq_apply_out _ _ _ _ (Or.inr (by simp [hplen]; omega))]

/-- A concrete packet used to witness the checksum-in-data claim. -/
def c3Packet : Fingerprint_Packet where
  start_code := FINGERPRINT_STARTCODE
  address := fun _ => 0xFF
  type := FINGERPRINT_ACKPACKET
  length := 3
  data := fun i => [0x00, 0x11, 0x22].getD i 0

theorem parser_checksum_lands_in_data_witness :
    c3Packet.start_code = FINGERPRINT_STARTCODE ∧ c3Packet.length ≤ maxPacketSize ∧
    (∀ i, i < c3Packet.length → c3Packet.data i < 256) ∧ (0x12 : Nat) < 256 ∧
    (0x99 : Nat) < 256 ∧
    ((getStructuredPacket c3Packet 40
        (zeroGaps ((writeStructuredPacket c3Packet).take (9 + c3Packet.length)
          ++ [0x12, 0x99]))).1 = FINGERPRINT_OK
    ∧ (getStructuredPacket c3Packet 40
        (zeroGaps ((writeStructuredPacket c3Packet).take (9 + c3Packet.length)
          ++ [0x12, 0x99]))).2.1.length = c3Packet.length + 2
    ∧ (∀ j, j < c3Packet.length →
        (getStructuredPacket c3Packet 40
          (zeroGaps ((writeStructuredPacket c3Packet).take (9 + c3Packet.length)
            ++ [0x12, 0x99]))).2.1.data j = c3Packet.data j)
    ∧ (getStructuredPacket c3Packet 40
        (zeroGaps ((writeStructuredPacket c3Packet).take (9 + c3Packet.length)
          ++ [0x12, 0x99]))).2.1.data c3Packet.length = 0x12
    ∧ (getStructuredPacket c3Packet 40
        (zeroGaps ((writeStructuredPacket c3Packet).take (9 + c3Packet.length)
          ++ [0x12, 0x99]))).2.1.data (c3Packet.length + 1) = 0x99
    ∧ (∀ j, c3Packet.length + 2 ≤ j →
        (getStructuredPacket c3Packet 40
          (zeroGaps ((writeStructuredPacket c3Packet).take (9 + c3Packet.length)
            ++ [0x12, 0x99]))).2.1.data j = c3Packet.data j)) :=
  ⟨by decide, by decide, by decide, by decide, by decide,
    parser_checksum_lands_in_data c3Packet c3Packet 0x12 0x99 40 (by decide) (by decide)
      (by decide) (by decide) (by decide)⟩

/-! ## C4: the timeout budget is cumulative, not per byte

The `timer` variable of `getStructuredPacket` is initialised once
(line 472) and never reset after a byte is received, so the waits for
successive bytes share a single budget. -/

/-- A complete, well-formed 10-byte frame: start code, broadcast
address, acknowledgment type, declared length 1, one post-header
byte. -/
def c4Frame : List Nat :=
  [0xEF, 0x01, 0xFF, 0xFF, 0xFF, 0xFF, 0x07, 0x00, 0x01, 0x00]

/-- C4 counterexample: `c4Frame` is a complete packet — delivered with
no waiting it parses to `FINGERPRINT_OK` — and when every one of its
bytes arrives after a 2 ms wait, each inter-byte gap strictly below
the 3 ms timeout, the parser nevertheless returns
`FINGERPRINT_TIMEOUT`: the poll counter is shared across bytes, so the
2 ms spent on the first byte plus the wait for the second reaches the
3 ms budget.  This refutes the claim that a packet whose every
inter-byte gap is below the timeout is never reported as `Timeout`. -/
theorem perByte_timeout_budget_false :
    (getStructuredPacket (Fingerprint_Packet.ofCommand FINGERPRINT_COMMANDPACKET
        [FINGERPRINT_READSYSPARAM]) 3 (zeroGaps c4Frame)).1 = FINGERPRINT_OK
    ∧ (∀ gb ∈ c4Frame.map fun b => ((2 : Nat), b), gb.1 < 3)
    ∧ (getStructuredPacket (Fingerprint_Packet.ofCommand FINGERPRINT_COMMANDPACKET
        [FINGERPRINT_READSYSPARAM]) 3 (c4Frame.map fun b => ((2 : Nat), b))).1
        = FINGERPRINT_TIMEOUT
    ∧ FINGERPRINT_TIMEOUT ≠ FINGERPRINT_OK := by
  exact ⟨by decide, by decide, by decide, by decide⟩

/-- C4 amended: each byte read polls ring-buffer non-emptiness at a
1 ms interval, but against a single shared `timer` that is never reset
between bytes; the parser returns `Timeout` when the cumulative count
of 1 ms polls since the call began reaches the caller-supplied timeout
while some byte is awaited.  Consequently a well-formed frame is
parsed to `FINGERPRINT_OK` whenever every byte's wait keeps the
cumulative poll count below the timeout (`gapsFit`), regardless of how
the waiting is distributed over the bytes. -/
lemma map_snd_cons {s : List (Nat × Nat)} {b : Nat} {l : List Nat}
    (h : s.map Prod.snd = b :: l) :
    ∃ g s', s = (g, b) :: s' ∧ s'.map Prod.snd = l := by
  cases s with
  | nil => simp at h
  | cons x s' =>
    obtain ⟨g, b'⟩ := x
    simp only [List.map_cons, List.cons.injEq] at h
    exact ⟨g, s', by simp [h.1], h.2⟩

theorem cumulative_timeout_budget (p q : Fingerprint_Packet) (timeout : Nat)
    (s : List (Nat × Nat))
    (hsc : p.start_code = FINGERPRINT_STARTCODE)
    (hlen : p.length ≤ maxPacketSize)
    (hbytes : s.map Prod.snd = writeStructuredPacket p)
    (hfit : gapsFit timeout 0 s = true) :
    (getStructuredPacket q timeout s).1 = FINGERPRINT_OK := by
  have hl64 : p.length ≤ 64 := hlen
  have hsclt : p.start_code < 65536 := by rw [hsc]; norm_num [FINGERPRINT_STARTCODE]
  have hdiv : (p.length + 2) / 256 = 0 := Nat.div_eq_of_lt (by omega)
  have hmod : (p.length + 2) % 256 = p.length + 2 := Nat.mod_eq_of_lt (by omega)
  have hplen : (payloadBytes p).length = p.length := by simp [payloadBytes]
  rw [writeStructuredPacket_eq p hlen hsclt, hsc, hdiv, hmod,
    show FINGERPRINT_STARTCODE / 256 = 0xEF by norm_num [FINGERPRINT_STARTCODE],
    show FINGERPRINT_STARTCODE % 256 = 0x01 by norm_num [FINGERPRINT_STARTCODE],
    List.append_assoc] at hbytes
  simp only [List.cons_append, List.nil_append] at hbytes
  obtain ⟨g0, s1, rfl, h1⟩ := map_snd_cons hbytes
  obtain ⟨g1, s2, rfl, h2⟩ := map_snd_cons h1
  obtain ⟨g2, s3, rfl, h3⟩ := map_snd_cons h2
  obtain ⟨g3, s4, rfl, h4⟩ := map_snd_cons h3
  obtain ⟨g4, s5, rfl, h5⟩ := map_snd_cons h4
  obtain ⟨g5, s6, rfl, h6⟩ := map_snd_cons h5
  obtain ⟨g6, s7, rfl, h7⟩ := map_snd_cons h6
  obtain ⟨g7, s8, rfl, h8⟩ := map_snd_cons h7
  obtain ⟨g8, s9, rfl, h9⟩ := map_snd_cons h8
  have hslen : s9.length = (payloadBytes p ++
      [specChecksum p / 256, specChecksum p % 256]).length := by
    rw [← h9, List.length_map]
  simp only [List.length_append, hplen, List.length_cons, List.length_nil] at hslen
  unfold getStructuredPacket
  rw [← List.append_nil s9]
  rw [getSPLoop_frame timeout g0 g1 g2 g3 g4 g5 g6 g7 g8 (p.address 0) (p.address 1)
    (p.address 2) (p.address 3) p.type 0 (p.length + 2) s9 [] q 0
    (by simp only [hmod, Nat.zero_mod, Nat.zero_shiftLeft, Nat.zero_or]; omega)
    (by omega) (by omega) hfit]

/-- The request packet that `GET_CMD_PACKET(FINGERPRINT_READSYSPARAM)`
builds in `getParameters` (Fingerprint.cpp lines 31-38 and 116); it is
also the in-place target of the response parse. -/
def readSysParamPacket : Fingerprint_Packet :=
  Fingerprint_Packet.ofCommand FINGERPRINT_COMMANDPACKET [FINGERPRINT_READSYSPARAM]

/-- Inversion: whenever a run of the state machine returns
`FINGERPRINT_OK`, the bytes it consumed are some discarded pre-start
bytes, the 9 header bytes, and exactly `length` post-header bytes for
the parsed `length` field. -/
lemma getSPLoop_ok_consumed (timeout : Nat) :
    ∀ (s : List (Nat × Nat)) (pkt : Fingerprint_Packet) (idx timer : Nat)
      (r : Fingerprint_Packet) (rest : List (Nat × Nat)),
      getSPLoop timeout pkt idx timer s = (FINGERPRINT_OK, r, rest) →
      ∃ d, s.length + idx = d + 9 + r.length + rest.length := by
  intro s
  induction s with
  | nil =>
    intro pkt idx timer r rest h
    simp [getSPLoop, FINGERPRINT_TIMEOUT, FINGERPRINT_OK, Prod.ext_iff] at h
  | cons gb s ih =>
    intro pkt idx timer r rest h
    obtain ⟨g, b⟩ := gb
    simp only [getSPLoop] at h
    have hm : (idx + 1) % 65536 ≤ idx + 1 := Nat.mod_le _ _
    simp only [List.length_cons]
    split_ifs at h with ht hi0 hb0 hi1 hsc1 hi5 hi6 hi7 hi8 hend
    · simp [FINGERPRINT_TIMEOUT, FINGERPRINT_OK, Prod.ext_iff] at h
    · obtain ⟨d, hd⟩ := ih _ _ _ _ _ h
      exact ⟨d + 1, by omega⟩
    · obtain ⟨d, hd⟩ := ih _ _ _ _ _ h
      exact ⟨d + 1 + idx - (idx + 1) % 65536, by omega⟩
    · simp [FINGERPRINT_BADPACKET, FINGERPRINT_OK, Prod.ext_iff] at h
    · obtain ⟨d, hd⟩ := ih _ _ _ _ _ h
      exact ⟨d + 1 + idx - (idx + 1) % 65536, by omega⟩
    · obtain ⟨d, hd⟩ := ih _ _ _ _ _ h
      exact ⟨d + 1 + idx - (idx + 1) % 65536, by omega⟩
    · obtain ⟨d, hd⟩ := ih _ _ _ _ _ h
      exact ⟨d + 1 + idx - (idx + 1) % 65536, by omega⟩
    · obtain ⟨d, hd⟩ := ih _ _ _ _ _ h
      exact ⟨d + 1 + idx - (idx + 1) % 65536, by omega⟩
    · obtain ⟨d, hd⟩ := ih _ _ _ _ _ h
      exact ⟨d + 1 + idx - (idx + 1) % 65536, by omega⟩
    · simp only [Prod.ext_iff] at h
      obtain ⟨-, hr, hrest⟩ := h
      have hlen : r.length = idx - 8 := by rw [← hr]; exact hend.symm
      have hrl : rest.length = s.length := by rw [← hrest]
      exact ⟨0, by omega⟩
    · obtain ⟨d, hd⟩ := ih _ _ _ _ _ h
      exact ⟨d + 1 + idx - (idx + 1) % 65536, by omega⟩

/-- C5: a frame declaring 5 post-header bytes of which only 3 ever
arrive makes the parser return `FINGERPRINT_TIMEOUT`, never a
truncated `FINGERPRINT_OK`; and in general an `FINGERPRINT_OK` return
is only possible once the parser has consumed, beyond the discarded
pre-start bytes and the 9 header bytes, exactly as many post-header
bytes as the declared length. -/
theorem truncated_frame_times_out :
    (getStructuredPacket readSysParamPacket 50
        (zeroGaps [0xEF, 0x01, 0xFF, 0xFF, 0xFF, 0xFF, 0x07, 0x00, 0x05, 0xAA, 0xBB, 0xCC])).1
      = FINGERPRINT_TIMEOUT
    ∧ ∀ (q r : Fingerprint_Packet) (timeout : Nat) (s rest : List (Nat × Nat)),
        getStructuredPacket q timeout s = (FINGERPRINT_OK, r, rest) →
        ∃ d, s.length = d + 9 + r.length + rest.length := by
  refine ⟨by decide, fun q r timeout s rest h => ?_⟩
  obtain ⟨d, hd⟩ := getSPLoop_ok_consumed timeout s q 0 0 r rest h
  exact ⟨d, by omega⟩

/-- A complete 3-byte frame used to witness the consumption identity
of the `FINGERPRINT_OK` case. -/
def c5OkStream : List (Nat × Nat) :=
  zeroGaps [0xEF, 0x01, 0x01, 0x02, 0x03, 0x04, 0x07, 0x00, 0x03, 0x09, 0x08, 0x07]

theorem truncated_frame_times_out_witness :
    ∃ d, c5OkStream.length = d + 9
      + (getStructuredPacket readSysParamPacket 50 c5OkStream).2.1.length
      + (getStructuredPacket readSysParamPacket 50 c5OkStream).2.2.length :=
  truncated_frame_times_out.2 readSysParamPacket
    (getStructuredPacket readSysParamPacket 50 c5OkStream).2.1 50 c5OkStream
    (getStructuredPacket readSysParamPacket 50 c5OkStream).2.2 rfl

/-! ## C6: a wrong first byte is discarded, not an error -/

/-- C6 counterexample: an incoming stream whose first two bytes `0x00
0x00` do not combine to the start code does NOT make the parser return
`FINGERPRINT_BADPACKET`: state 0 silently discards the non-matching
first byte (the `continue` at line 501) and the parser keeps scanning,
here ending in `FINGERPRINT_TIMEOUT` once the stream is exhausted. -/
theorem bad_first_bytes_not_badPacket :
    (getStructuredPacket readSysParamPacket 2 [(0, 0x00), (0, 0x00)]).1 = FINGERPRINT_TIMEOUT
    ∧ FINGERPRINT_TIMEOUT ≠ FINGERPRINT_BADPACKET :=
  ⟨by decide, by decide⟩

/-- C6 amended: `FINGERPRINT_BADPACKET` is returned — without
consuming any byte beyond the second — exactly when the FIRST byte
already matches the start-code high byte and the second byte fails to
complete the start code; a first byte that does not match the high
byte is not an error: it is silently discarded and scanning resumes in
state 0 on the rest of the stream. -/
theorem startcode_mismatch_behavior (pkt : Fingerprint_Packet) (timeout : Nat)
    (b0 b : Nat) (s : List (Nat × Nat))
    (hb0 : b0 % 256 ≠ 0xEF) (hb : b % 256 ≠ 0x01) :
    getStructuredPacket pkt timeout ((0, 0xEF) :: (0, b) :: s) =
      (FINGERPRINT_BADPACKET, { pkt with start_code := 0xEF00 ||| b % 256 }, s)
    ∧ getStructuredPacket pkt timeout ((0, b0) :: s) = getSPLoop timeout pkt 0 0 s := by
  have hor : ∀ x, x < 256 → (61184 : Nat) ||| x = 61184 + x := by decide
  have hcond : (61184 : Nat) ||| b % 256 ≠ FINGERPRINT_STARTCODE := by
    rw [hor (b % 256) (Nat.mod_lt _ (by omega))]
    have hblt := Nat.mod_lt b (show 0 < 256 by omega)
    simp only [FINGERPRINT_STARTCODE]
    omega
  constructor
  · unfold getStructuredPacket
    rw [getSP_step0 _ _ _ _ _ (by simp)]
    simp only [getSPLoop]
    rw [if_neg (by simp : ¬ ((0:Nat) < 0 ∧ timeout ≤ 0 + 0 + 0))]
    norm_num [hcond]
  · unfold getStructuredPacket
    simp only [getSPLoop]
    rw [if_neg (by simp : ¬ ((0:Nat) < 0 ∧ timeout ≤ 0 + 0))]
    norm_num [FINGERPRINT_STARTCODE, Nat.shiftRight_eq_div_pow, hb0]

theorem startcode_mismatch_behavior_witness :
    (0x13 : Nat) % 256 ≠ 0xEF ∧ (0x02 : Nat) % 256 ≠ 0x01 ∧
    (getStructuredPacket readSysParamPacket 5 [(0, 0xEF), (0, 0x02)] =
        (FINGERPRINT_BADPACKET,
          { readSysParamPacket with start_code := 0xEF00 ||| 0x02 % 256 }, [])
      ∧ getStructuredPacket readSysParamPacket 5 [(0, 0x13)] =
          getSPLoop 5 readSysParamPacket 0 0 []) :=
  ⟨by decide, by decide,
    startcode_mismatch_behavior readSysParamPacket 5 0x13 0x02 [] (by decide) (by decide)⟩

/-- A concrete packet used to witness the cumulative-budget parse. -/
def c4Packet : Fingerprint_Packet where
  start_code := FINGERPRINT_STARTCODE
  address := fun _ => 0xFF
  type := FINGERPRINT_COMMANDPACKET
  length := 1
  data := fun i => [0x1B].getD i 0

theorem cumulative_timeout_budget_witness :
    c4Packet.start_code = FINGERPRINT_STARTCODE ∧ c4Packet.length ≤ maxPacketSize ∧
    ((writeStructuredPacket c4Packet).map fun b => (5, b)).map Prod.snd
      = writeStructuredPacket c4Packet ∧
    gapsFit 100 0 ((writeStructuredPacket c4Packet).map fun b => (5, b)) = true ∧
    (getStructuredPacket c4Packet 100
      ((writeStructuredPacket c4Packet).map fun b => (5, b))).1 = FINGERPRINT_OK :=
  ⟨by decide, by decide, by decide, by decide,
    cumulative_timeout_budget c4Packet c4Packet 100 _ (by decide) (by decide) (by decide)
      (by decide)⟩

/-! ## Session state and command layer

`Fingerprint` object state (member variables of the driver class,
declared in the missing `Fingerprint.h`, initialised in the
constructor at Fingerprint.cpp lines 59-76 and mutated by the command
methods). -/

structure SessionState where
  status_reg : Nat
  system_id : Nat
  capacity : Nat
  security_level : Nat
  device_addr : Nat
  packet_len : Nat
  baud_rate : Nat
  fingerID : Nat
  confidence : Nat
  templateCount : Nat

/-- The member-variable values set by the constructor (Fingerprint.cpp
lines 64-70).  `fingerID`, `confidence` and `templateCount` are not
initialised there; 0 is used for them in this model. -/
def initialSession : SessionState where
  status_reg := 0x0
  system_id := 0x0
  capacity := 64
  security_level := 0
  device_addr := 0xFFFFFFFF
  packet_len := 64
  baud_rate := 57600
  fingerID := 0
  confidence := 0
  templateCount := 0

/-- `Fingerprint::getParameters` (Fingerprint.cpp lines 115-138).  The
`GET_CMD_PACKET` macro (lines 31-38) builds the request packet, sends
it (no effect on the session state), and parses the response in place
into the same packet; `stream` models the response bytes arriving in
the ring buffer.  On a failed receive or a non-acknowledgment type the
method returns `FINGERPRINT_PACKETRECIEVEERR` before touching any
member variable; otherwise it decodes the payload into the member
variables and returns the payload status byte. -/
def getParameters (s : SessionState) (stream : List (Nat × Nat)) (timeout : Nat) :
    Nat × SessionState :=
  let res := getStructuredPacket readSysParamPacket timeout stream
  if res.1 ≠ FINGERPRINT_OK then (FINGERPRINT_PACKETRECIEVEERR, s)
  else if res.2.1.type ≠ FINGERPRINT_ACKPACKET then (FINGERPRINT_PACKETRECIEVEERR, s)
  else
    let packet := res.2.1
    let raw := (packet.data 13 <<< 8) ||| packet.data 14
    (packet.data 0,
     { s with
       status_reg := (packet.data 1 <<< 8) ||| packet.data 2,
       system_id := (packet.data 3 <<< 8) ||| packet.data 4,
       capacity := (packet.data 5 <<< 8) ||| packet.data 6,
       security_level := (packet.data 7 <<< 8) ||| packet.data 8,
       device_addr := (packet.data 9 <<< 24) ||| (packet.data 10 <<< 16)
         ||| (packet.data 11 <<< 8) ||| packet.data 12,
       packet_len :=
         if raw = 0 then 32
         else if raw = 1 then 64
         else if raw = 2 then 128
         else if raw = 3 then 256
         else raw,
       baud_rate := ((packet.data 15 <<< 8) ||| packet.data 16) * 9600 })

/-- C7: when the send/receive cycle of `getParameters` fails — the
parse does not return `FINGERPRINT_OK`, or the response type is not
the acknowledgment type — the method returns the communication-error
status and leaves `status_reg`, `system_id`, `capacity`,
`security_level`, `device_addr`, `packet_len` and `baud_rate` (the
whole session state) unchanged. -/
theorem getParameters_comm_failure (s : SessionState) (stream : List (Nat × Nat))
    (timeout : Nat)
    (h : (getStructuredPacket readSysParamPacket timeout stream).1 ≠ FINGERPRINT_OK
      ∨ (getStructuredPacket readSysParamPacket timeout stream).2.1.type
          ≠ FINGERPRINT_ACKPACKET) :
    getParameters s stream timeout = (FINGERPRINT_PACKETRECIEVEERR, s) := by
  unfold getParameters
  rcases h with h | h
  · rw [if_pos h]
  · by_cases h1 : (getStructuredPacket readSysParamPacket timeout stream).1 = FINGERPRINT_OK
    · rw [if_neg (by simpa using h1), if_pos h]
    · rw [if_pos h1]

theorem getParameters_comm_failure_witness :
    ((getStructuredPacket readSysParamPacket 3 []).1 ≠ FINGERPRINT_OK
      ∨ (getStructuredPacket readSysParamPacket 3 []).2.1.type ≠ FINGERPRINT_ACKPACKET)
    ∧ getParameters initialSession [] 3 = (FINGERPRINT_PACKETRECIEVEERR, initialSession) :=
  ⟨Or.inl (by decide), getParameters_comm_failure initialSession [] 3 (Or.inl (by decide))⟩

/-- A response frame for `getParameters` carrying the raw packet-length
code `0x0007` (not a 2-bit code) in payload bytes 13-14; payload
status byte 0 (`Ok`), declared wire length 19. -/
def c8Stream : List (Nat × Nat) :=
  zeroGaps ([0xEF, 0x01, 0xFF, 0xFF, 0xFF, 0xFF, 0x07, 0x00, 0x13]
    ++ [0x00, 0x00, 0x00, 0x00, 0x00, 0x00, 0x40, 0x00, 0x00,
        0x00, 0x00, 0x00, 0x00, 0x00, 0x07, 0x00, 0x06, 0x00, 0x00])

/-- C8 counterexample: `getParameters` accepts this acknowledgment
response and returns success, yet the resulting `packet_len` is 7 —
the raw 16-bit value from payload bytes 13-14 — which is none of 32,
64, 128, 256: the decode applies only to codes 0..3 and the raw value
is kept otherwise. -/
theorem packetLen_escapes_decode_set :
    (getParameters initialSession c8Stream 100).1 = FINGERPRINT_OK
    ∧ (getParameters initialSession c8Stream 100).2.packet_len = 7
    ∧ ¬ ((getParameters initialSession c8Stream 100).2.packet_len = 32
        ∨ (getParameters initialSession c8Stream 100).2.packet_len = 64
        ∨ (getParameters initialSession c8Stream 100).2.packet_len = 128
        ∨ (getParameters initialSession c8Stream 100).2.packet_len = 256) := by
  refine ⟨by decide, by decide, by decide⟩

/-- C8 amended: after a `getParameters` call that accepts its
response, `packet_len` is the decode of the raw 16-bit value of
payload bytes 13-14 only when that value is a 2-bit code — 0 maps to
32, 1 to 64, 2 to 128, 3 to 256 — while any raw value above 3 is
stored unchanged, so `packet_len` is not guaranteed to lie in
{32, 64, 128, 256}. -/
theorem packetLen_decode_amended (s : SessionState) (stream : List (Nat × Nat))
    (timeout : Nat)
    (h1 : (getStructuredPacket readSysParamPacket timeout stream).1 = FINGERPRINT_OK)
    (h2 : (getStructuredPacket readSysParamPacket timeout stream).2.1.type
        = FINGERPRINT_ACKPACKET) :
    (((getStructuredPacket readSysParamPacket timeout stream).2.1.data 13 <<< 8)
        ||| (getStructuredPacket readSysParamPacket timeout stream).2.1.data 14 = 0 →
      (getParameters s stream timeout).2.packet_len = 32)
    ∧ (((getStructuredPacket readSysParamPacket timeout stream).2.1.data 13 <<< 8)
        ||| (getStructuredPacket readSysParamPacket timeout stream).2.1.data 14 = 1 →
      (getParameters s stream timeout).2.packet_len = 64)
    ∧ (((getStructuredPacket readSysParamPacket timeout stream).2.1.data 13 <<< 8)
        ||| (getStructuredPacket readSysParamPacket timeout stream).2.1.data 14 = 2 →
      (getParameters s stream timeout).2.packet_len = 128)
    ∧ (((getStructuredPacket readSysParamPacket timeout stream).2.1.data 13 <<< 8)
        ||| (getStructuredPacket readSysParamPacket timeout stream).2.1.data 14 = 3 →
      (getParameters s stream timeout).2.packet_len = 256)
    ∧ (3 < ((getStructuredPacket readSysParamPacket timeout stream).2.1.data 13 <<< 8)
        ||| (getStructuredPacket readSysParamPacket timeout stream).2.1.data 14 →
      (getParameters s stream timeout).2.packet_len =
        ((getStructuredPacket readSysParamPacket timeout stream).2.1.data 13 <<< 8)
          ||| (getStructuredPacket readSysParamPacket timeout stream).2.1.data 14) := by
  unfold getParameters
  rw [if_neg (by simp [h1]), if_neg (by simp [h2])]
  refine ⟨fun h => by simp [h], fun h => by simp [h], fun h => by simp [h],
    fun h => by simp [h], fun h => ?_⟩
  dsimp only
  split_ifs <;> omega

theorem packetLen_decode_amended_witness :
    (getStructuredPacket readSysParamPacket 100 c8Stream).1 = FINGERPRINT_OK
    ∧ (getStructuredPacket readSysParamPacket 100 c8Stream).2.1.type = FINGERPRINT_ACKPACKET
    ∧ 3 < ((getStructuredPacket readSysParamPacket 100 c8Stream).2.1.data 13 <<< 8)
        ||| (getStructuredPacket readSysParamPacket 100 c8Stream).2.1.data 14
    ∧ (getParameters initialSession c8Stream 100).2.packet_len =
        ((getStructuredPacket readSysParamPacket 100 c8Stream).2.1.data 13 <<< 8)
          ||| (getStructuredPacket readSysParamPacket 100 c8Stream).2.1.data 14 :=
  ⟨by decide, by decide, by decide,
    (packetLen_decode_amended initialSession c8Stream 100 (by decide) (by decide)).2.2.2.2
      (by decide)⟩

/-- The request packet built by `fingerFastSearch` (Fingerprint.cpp
line 261): high-speed search of slot 1 over pages 0x0000..0x00A3. -/
def fastSearchPacket : Fingerprint_Packet :=
  Fingerprint_Packet.ofCommand FINGERPRINT_COMMANDPACKET
    [FINGERPRINT_HISPEEDSEARCH, 0x01, 0x00, 0x00, 0x00, 0xA3]

/-- `Fingerprint::fingerFastSearch` (Fingerprint.cpp lines 259-274):
send the high-speed-search command, propagate a communication failure,
otherwise set `fingerID` and `confidence` to the sentinel 0xFFFF and
then overwrite them with the big-endian values of payload bytes 1-2
and 3-4 (`uint16_t` shifts, hence `% 65536`), returning payload
byte 0. -/
def fingerFastSearch (s : SessionState) (stream : List (Nat × Nat)) (timeout : Nat) :
    Nat × SessionState :=
  let res := getStructuredPacket fastSearchPacket timeout stream
  if res.1 ≠ FINGERPRINT_OK then (FINGERPRINT_PACKETRECIEVEERR, s)
  else if res.2.1.type ≠ FINGERPRINT_ACKPACKET then (FINGERPRINT_PACKETRECIEVEERR, s)
  else
    let packet := res.2.1
    let s1 := { s with fingerID := 0xFFFF, confidence := 0xFFFF }
    let s2 := { s1 with fingerID := ((packet.data 1 <<< 8) % 65536) ||| packet.data 2 }
    let s3 := { s2 with confidence := ((packet.data 3 <<< 8) % 65536) ||| packet.data 4 }
    (packet.data 0, s3)

/-- C9: when the fast-search response is received as an acknowledgment
whose payload status byte is `FINGERPRINT_NOTFOUND`, the method
returns `FINGERPRINT_NOTFOUND` (which is not `FINGERPRINT_OK`), and
`fingerID` / `confidence` are left readable: first set to the sentinel
0xFFFF, then overwritten with the values parsed from payload bytes 1-2
and 3-4. -/
theorem fingerFastSearch_notFound (s : SessionState) (stream : List (Nat × Nat))
    (timeout : Nat)
    (h1 : (getStructuredPacket fastSearchPacket timeout stream).1 = FINGERPRINT_OK)
    (h2 : (getStructuredPacket fastSearchPacket timeout stream).2.1.type
        = FINGERPRINT_ACKPACKET)
    (h3 : (getStructuredPacket fastSearchPacket timeout stream).2.1.data 0
        = FINGERPRINT_NOTFOUND) :
    fingerFastSearch s stream timeout =
      (FINGERPRINT_NOTFOUND,
       { s with
         fingerID := (((getStructuredPacket fastSearchPacket timeout stream).2.1.data 1
           <<< 8) % 65536) ||| (getStructuredPacket fastSearchPacket timeout stream).2.1.data 2,
         confidence := (((getStructuredPacket fastSearchPacket timeout stream).2.1.data 3
           <<< 8) % 65536)
             ||| (getStructuredPacket fastSearchPacket timeout stream).2.1.data 4 })
    ∧ FINGERPRINT_NOTFOUND ≠ FINGERPRINT_OK := by
  constructor
  · unfold fingerFastSearch
    rw [if_neg (by simp [h1]), if_neg (by simp [h2])]
    dsimp only
    rw [h3]
  · decide

/-- A fast-search acknowledgment response whose payload status byte is
`FINGERPRINT_NOTFOUND` (0x09), with match fields 0x0005 and 0x004D. -/
def c9Stream : List (Nat × Nat) :=
  zeroGaps ([0xEF, 0x01, 0xFF, 0xFF, 0xFF, 0xFF, 0x07, 0x00, 0x07]
    ++ [0x09, 0x00, 0x05, 0x00, 0x4D, 0x00, 0x00])

theorem fingerFastSearch_notFound_witness :
    (getStructuredPacket fastSearchPacket 100 c9Stream).1 = FINGERPRINT_OK
    ∧ (getStructuredPacket fastSearchPacket 100 c9Stream).2.1.type = FINGERPRINT_ACKPACKET
    ∧ (getStructuredPacket fastSearchPacket 100 c9Stream).2.1.data 0 = FINGERPRINT_NOTFOUND
    ∧ (fingerFastSearch initialSession c9Stream 100 =
        (FINGERPRINT_NOTFOUND,
         { initialSession with
           fingerID := (((getStructuredPacket fastSearchPacket 100 c9Stream).2.1.data 1
             <<< 8) % 65536) ||| (getStructuredPacket fastSearchPacket 100 c9Stream).2.1.data 2,
           confidence := (((getStructuredPacket fastSearchPacket 100 c9Stream).2.1.data 3
             <<< 8) % 65536)
               ||| (getStructuredPacket fastSearchPacket 100 c9Stream).2.1.data 4 })
      ∧ FINGERPRINT_NOTFOUND ≠ FINGERPRINT_OK) :=
  ⟨by decide, by decide, by decide,
    fingerFastSearch_notFound initialSession c9Stream 100 (by decide) (by decide) (by decide)⟩

/-! ## C10: ring-buffer cursor wrap off-by-one

`receiveUART` / `readUARTbuff` (Fingerprint.cpp lines 552-567).
Pointers into `buffUART` are modelled as offsets from the array base;
`n` stands for `sizeof(buffUART)` (declared in the missing
`Fingerprint.h` — the result below holds for every capacity `n > 0`).
The wrap test is `pe > buffUART + sizeof(buffUART)`, a strict
comparison against the one-past-the-end address. -/

structure RingState where
  buffUART : Nat → Nat
  pe : Nat
  pl : Nat

/-- `Fingerprint::receiveUART` (lines 552-559): store the received
byte through `pe`, advance, and wrap only once the cursor exceeds the
one-past-the-end offset `n`. -/
def receiveUART (n : Nat) (st : RingState) (c : Nat) : RingState :=
  let st' := { st with buffUART := Function.update st.buffUART st.pe (c % 256) }
  let pe' := st'.pe + 1
  if pe' > n then { st' with pe := 0 } else { st' with pe := pe' }

/-- `Fingerprint::readUARTbuff` (lines 561-567): read through `pl`,
advance, wrap identically. -/
def readUARTbuff (n : Nat) (st : RingState) : RingState × Nat :=
  let c := st.buffUART st.pl
  let pl' := st.pl + 1
  if pl' > n then ({ st with pl := 0 }, c) else ({ st with pl := pl' }, c)

/-- A sequence of receive interrupts. -/
def pushAll (n : Nat) (st : RingState) : List Nat → RingState
  | [] => st
  | c :: cs => pushAll n (receiveUART n st c) cs

lemma pushAll_pe (n : Nat) :
    ∀ (cs : List Nat) (st : RingState), st.pe + cs.length ≤ n →
      (pushAll n st cs).pe = st.pe + cs.length := by
  intro cs
  induction cs with
  | nil => intro st _; simp [pushAll]
  | cons c cs ih =>
    intro st h
    simp only [List.length_cons] at h
    have hstep : (receiveUART n st c).pe = st.pe + 1 := by
      unfold receiveUART
      dsimp only
      rw [if_neg (show ¬ st.pe + 1 > n by omega)]
    have harg : (receiveUART n st c).pe + cs.length ≤ n := by rw [hstep]; omega
    simp only [pushAll, List.length_cons]
    rw [ih _ harg, hstep]
    omega

/-- C10: both ring cursors range over `capacity + 1` positions (the
wrap test uses strict greater-than against the one-past-the-end
offset), and after exactly `capacity` interrupts from the fresh state
the producer cursor equals `capacity` itself — so the next
`receiveUART` stores its byte through `buffUART + sizeof(buffUART)`,
one element past the array, and the invariant that every push writes
at an offset strictly below the capacity fails. -/
theorem receiveUART_writes_past_end (n : Nat) (hn : 0 < n) (cs : List Nat)
    (hlen : cs.length = n) (st : RingState) (hpe : st.pe = 0) :
    (pushAll n st cs).pe = n
    ∧ ¬ ((pushAll n st cs).pe < n)
    ∧ (∀ c, (receiveUART n (pushAll n st cs) c).buffUART n = c % 256)
    ∧ (∀ (st' : RingState) (c : Nat), st'.pe ≤ n → (receiveUART n st' c).pe ≤ n)
    ∧ (∀ st' : RingState, st'.pl ≤ n → (readUARTbuff n st').1.pl ≤ n) := by
  have hp : (pushAll n st cs).pe = n := by
    rw [pushAll_pe n cs st (by omega), hpe, hlen]
    omega
  refine ⟨hp, by omega, ?_, ?_, ?_⟩
  · intro c
    unfold receiveUART
    dsimp only
    split_ifs <;> (rw [hp]; exact Function.update_same _ _ _)
  · intro st' c h
    unfold receiveUART
    dsimp only
    split_ifs with h' <;> dsimp only <;> omega
  · intro st' h
    unfold readUARTbuff
    dsimp only
    split_ifs with h' <;> dsimp only <;> omega

/-- A fresh driver state: both cursors at the array base
(constructor, lines 72-73). -/
def ringInit : RingState where
  buffUART := fun _ => 0
  pe := 0
  pl := 0

theorem receiveUART_writes_past_end_witness :
    0 < 4 ∧ ([0x01, 0x02, 0x03, 0x04] : List Nat).length = 4 ∧ ringInit.pe = 0 ∧
    ((pushAll 4 ringInit [0x01, 0x02, 0x03, 0x04]).pe = 4
    ∧ ¬ ((pushAll 4 ringInit [0x01, 0x02, 0x03, 0x04]).pe < 4)
    ∧ (∀ c, (receiveUART 4 (pushAll 4 ringInit [0x01, 0x02, 0x03, 0x04]) c).buffUART 4
        = c % 256)
    ∧ (∀ (st' : RingState) (c : Nat), st'.pe ≤ 4 → (receiveUART 4 st' c).pe ≤ 4)
    ∧ (∀ st' : RingState, st'.pl ≤ 4 → (readUARTbuff 4 st').1.pl ≤ 4)) :=
  ⟨by decide, by decide, by decide,
    receiveUART_writes_past_end 4 (by decide) [0x01, 0x02, 0x03, 0x04] (by decide) ringInit
      (by decide)⟩

end FingerprintProto
